import Mathlib

/-!
Verification of the pysbrain SBrain virtual machine (src/pysbrain/lib.py).

The Python class SBrainVirtualMachine is embedded shallowly: its mutable
attributes become the fields of a structure, and each method becomes a pure
function on that structure.  Python exceptions are made explicit: a method
that can raise returns its post-state paired with an optional error (the
state component records any mutations performed before the raise).  Machine
integers are Lean Int; index registers and the length counters, which the
source only ever moves through non-negative values, are Nat.
-/

/-- The Python exceptions the embedded methods can raise. -/
inductive PyErr where
  /-- TypeError, e.g. from unpacking an int into several assignment targets. -/
  | typeError : PyErr
  /-- ValueError, raised by the explicit type checks in write_data_t / push_data_s. -/
  | valueError : PyErr
  /-- IndexError, raised by out-of-range list indexing or list.pop on an empty list. -/
  | indexError : PyErr
deriving DecidableEq

/-- A Python value offered to write_data_t / push_data_s: either an int, or a
value of any other type (the tag distinguishes different non-int values; the
source only inspects type(value), never the value itself). -/
inductive PyVal where
  | int : Int → PyVal
  | nonint : Nat → PyVal
deriving DecidableEq

/-- The attribute state of a SBrainVirtualMachine instance.  Field names
follow the source; the leading underscore of the Python counters
_len_data_t, _len_data_s, _len_exec_t, _len_jump_s is dropped. -/
structure SBrainVirtualMachine where
  /-- self.data_t, the data tape. -/
  data_t : List Int
  /-- self._len_data_t, the current length of the data tape. -/
  len_data_t : Nat
  /-- self.data_s, the data stack (top at the end, per list.append / list.pop). -/
  data_s : List Int
  /-- self._len_data_s, the current depth of the data stack. -/
  len_data_s : Nat
  /-- self.exec_t, the executable tape. -/
  exec_t : List Int
  /-- self._len_exec_t, the length of the executable tape. -/
  len_exec_t : Nat
  /-- self.jump_s, the jump stack. -/
  jump_s : List Int
  /-- self._len_jump_s, the depth of the jump stack. -/
  len_jump_s : Nat
  /-- self.data_p, the data pointer. -/
  data_p : Nat
  /-- self.inst_p, the instruction pointer. -/
  inst_p : Nat
  /-- self.jump_p, the jump scratch pointer. -/
  jump_p : Nat
  /-- self.auxi_r, the auxiliary register. -/
  auxi_r : Int
deriving DecidableEq

/-- The attribute values assigned by the body of __init__ before its final
line.  The final line (the register multiple-assignment, see init below)
raises, so the four register fields are taken as 0 here, the value that
line intended to give each of them. -/
def initFields : SBrainVirtualMachine :=
  { data_t := [0], len_data_t := 1
    data_s := [0], len_data_s := 0
    exec_t := [0], len_exec_t := 1
    jump_s := [0], len_jump_s := 0
    data_p := 0, inst_p := 0, jump_p := 0, auxi_r := 0 }

/-- Embeds SBrainVirtualMachine.__init__.  Its last statement,
self.data_p, self.inst_p, self.jump_p, self.auxi_r = 0, attempts to unpack
the integer 0 into four targets, which raises TypeError in Python
(cannot unpack non-iterable int), so every construction raises. -/
def init : Except PyErr SBrainVirtualMachine :=
  Except.error PyErr.typeError

/-- Embeds load_data_tape: self.data_t = data_tape;
self._len_data_t = len(data_tape); self.data_p = 0.  Total, never raises. -/
def load_data_tape (vm : SBrainVirtualMachine) (data_tape : List Int) :
    SBrainVirtualMachine :=
  { vm with data_t := data_tape, len_data_t := data_tape.length, data_p := 0 }

/-- Embeds load_executable_tape: self.exec_t = exec_tape;
self._len_exec_t = len(exec_tape); self.inst_p = 0.  Total, never raises. -/
def load_executable_tape (vm : SBrainVirtualMachine) (exec_tape : List Int) :
    SBrainVirtualMachine :=
  { vm with exec_t := exec_tape, len_exec_t := exec_tape.length, inst_p := 0 }

/-- Embeds write_data_t.  The source first checks type(value) is int and
raises ValueError otherwise; then executes self.data_t[self.data_p] = value,
a plain Python list item assignment, which raises IndexError when data_p is
not below the list length (there is no growth logic in the source).
Returns the post-state and the error, if any, that the call raised. -/
def write_data_t (vm : SBrainVirtualMachine) (value : PyVal) :
    SBrainVirtualMachine × Option PyErr :=
  match value with
  | PyVal.nonint _ => (vm, some PyErr.valueError)
  | PyVal.int v =>
      if vm.data_p < vm.data_t.length then
        ({ vm with data_t := vm.data_t.set vm.data_p v }, none)
      else
        (vm, some PyErr.indexError)

/-- Embeds read_data_t: if self._len_data_t >= self.data_p it evaluates
self.data_t[self.data_p]; otherwise the method falls off its end and
returns Python None (here: ok none).  The indexing raises IndexError when
data_p is not below the actual list length.  The method never mutates. -/
def read_data_t (vm : SBrainVirtualMachine) : Except PyErr (Option Int) :=
  if vm.data_p ≤ vm.len_data_t then
    match vm.data_t[vm.data_p]? with
    | some x => Except.ok (some x)
    | none => Except.error PyErr.indexError
  else
    Except.ok none

/-- Embeds push_data_s.  The source checks type(value) is int, raising
ValueError otherwise, then appends value to self.data_s and increments
self._len_data_s. -/
def push_data_s (vm : SBrainVirtualMachine) (value : PyVal) :
    SBrainVirtualMachine × Option PyErr :=
  match value with
  | PyVal.nonint _ => (vm, some PyErr.valueError)
  | PyVal.int v =>
      ({ vm with data_s := vm.data_s ++ [v], len_data_s := vm.len_data_s + 1 },
        none)

/-- Embeds pop_data_s.  If self._len_data_s > 0 the source decrements the
counter and then returns self.data_s.pop(); list.pop removes and returns the
last element, raising IndexError on an empty list (in that case the counter
has already been decremented, which the state component records).  Otherwise
it returns 0 and leaves everything unchanged. -/
def pop_data_s (vm : SBrainVirtualMachine) :
    SBrainVirtualMachine × Except PyErr Int :=
  if 0 < vm.len_data_s then
    match vm.data_s.getLast? with
    | some x =>
        ({ vm with
            data_s := vm.data_s.dropLast
            len_data_s := vm.len_data_s - 1 },
          Except.ok x)
    | none =>
        ({ vm with len_data_s := vm.len_data_s - 1 },
          Except.error PyErr.indexError)
  else
    (vm, Except.ok 0)

/-- n consecutive pop_data_s calls, returning the final state and the list of
results in call order. -/
def popN : Nat → SBrainVirtualMachine →
    SBrainVirtualMachine × List (Except PyErr Int)
  | 0, vm => (vm, [])
  | Nat.succ n, vm =>
      let p := pop_data_s vm
      let q := popN n p.1
      (q.1, p.2 :: q.2)

/-!
The execution engine.  src/pysbrain/lib.py contains no dispatch loop,
no opcode table and no step function: only the memory-model methods above.
The loop-matching behaviour is therefore modelled from the spec
(sections 4.3 and 4.4): instructions, the forward scan with a nesting
counter, and the loop-enter step.
-/

/-- Modelled from the spec: the opcode classes of the instruction set that
the loop-matching algorithm distinguishes.  The source fixes no opcode
table (loop-enter is integer code 4 per the comment on jump_s; the others
are unspecified), so instructions are represented abstractly: loop-enter,
loop-exit, and any other instruction identified by its integer code. -/
inductive Instr where
  /-- A loop-enter instruction (the spec's [ class, integer code 4). -/
  | enter : Instr
  /-- A loop-exit instruction (the spec's ] class). -/
  | exitI : Instr
  /-- Any non-loop instruction with the given integer code. -/
  | other : Int → Instr
deriving DecidableEq

/-- Modelled from the spec: the forward scan of the loop-matching algorithm.
Called on the instructions that follow a loop-enter, with the nesting
counter initialized to 1; each loop-enter increments the counter, each
loop-exit decrements it; when it reaches 0 the current position is the
matching exit and the scan stops.  Returns the number of instructions
consumed up to and including the matching exit, or none when the scan runs
off the end of the tape (the spec's UnbalancedLoop fault). -/
def scanCount : List Instr → Nat → Option Nat
  | [], _ => none
  | i :: rest, c =>
      match i with
      | Instr.enter => (scanCount rest (c + 1)).map (· + 1)
      | Instr.exitI =>
          if c = 1 then some 1 else (scanCount rest (c - 1)).map (· + 1)
      | Instr.other _ => (scanCount rest c).map (· + 1)

/-- Modelled from the spec: the state of the execution engine that the
loop-enter step touches: the executable tape (as instructions), the
instruction pointer, the data tape and pointer, the data stack, the jump
stack of loop-enter addresses, and the output stream. -/
structure Machine where
  prog : List Instr
  inst_p : Nat
  data_t : List Int
  data_p : Nat
  data_s : List Int
  jump_s : List Nat
  out : List Int
deriving DecidableEq

/-- Modelled from the spec: the cell at data_p, reading an implicit zero
cell at or beyond the tape length. -/
def cellAt (m : Machine) : Int :=
  m.data_t.getD m.data_p 0

/-- Modelled from the spec: executing the loop-enter instruction at inst_p.
If the cell at data_p is 0, scan forward from just after the loop-enter
with nesting counter 1 and resume immediately after the matching exit
(none = the UnbalancedLoop fault when the scan runs off the tape);
otherwise push inst_p onto the jump stack and continue with the next
instruction. -/
def stepEnter (m : Machine) : Option Machine :=
  if cellAt m = 0 then
    match scanCount (m.prog.drop (m.inst_p + 1)) 1 with
    | some k => some { m with inst_p := m.inst_p + 1 + k }
    | none => none
  else
    some { m with jump_s := m.inst_p :: m.jump_s, inst_p := m.inst_p + 1 }

/-- Properly nested loop bodies: the instruction lists in which every
loop-enter has a matching loop-exit at the same level. -/
inductive LoopBalanced : List Instr → Prop
  | nil : LoopBalanced []
  | other (c : Int) {l : List Instr} : LoopBalanced l → LoopBalanced (Instr.other c :: l)
  | wrap {inner l : List Instr} : LoopBalanced inner → LoopBalanced l →
      LoopBalanced (Instr.enter :: (inner ++ Instr.exitI :: l))


/-- Unfolding scanCount on a loop-enter instruction. -/
theorem scanCount_enter (xs : List Instr) (c : Nat) :
    scanCount (Instr.enter :: xs) c = (scanCount xs (c + 1)).map (· + 1) := rfl

/-- Unfolding scanCount on a loop-exit instruction. -/
theorem scanCount_exitI (xs : List Instr) (c : Nat) :
    scanCount (Instr.exitI :: xs) c =
      if c = 1 then some 1 else (scanCount xs (c - 1)).map (· + 1) := rfl

/-- Unfolding scanCount on a non-loop instruction. -/
theorem scanCount_other (code : Int) (xs : List Instr) (c : Nat) :
    scanCount (Instr.other code :: xs) c = (scanCount xs c).map (· + 1) := rfl

/-- Dropping a prefix plus one element of a list leaves the remainder. -/
theorem drop_after {α : Type} (pre : List α) (x : α) (l : List α) :
    (pre ++ x :: l).drop (pre.length + 1) = l := by
  induction pre with
  | nil => simp
  | cons a t ih => simp [ih]

/-- Scanning across a properly nested segment with a positive nesting
counter consumes exactly the segment and continues with the counter
unchanged. -/
theorem scanCount_balanced {b : List Instr} (hb : LoopBalanced b) :
    ∀ (rest : List Instr) (c : Nat), 1 ≤ c →
      scanCount (b ++ rest) c = (scanCount rest c).map (· + b.length) := by
  induction hb with
  | nil =>
      intro rest c _
      cases h : scanCount rest c <;> simp [h]
  | other code _ ih =>
      intro rest c hc
      rw [List.cons_append, scanCount_other, ih rest c hc]
      cases h : scanCount rest c <;> simp [h]
      omega
  | @wrap inner l hinner hl ihinner ihl =>
      intro rest c hc
      have hne : ¬ (c + 1 = 1) := by omega
      rw [List.cons_append, List.append_assoc, List.cons_append,
        scanCount_enter, ihinner _ (c + 1) (by omega), scanCount_exitI,
        if_neg hne, Nat.add_sub_cancel, ihl rest c hc]
      cases h : scanCount rest c <;> simp [h, List.length_append]
      omega

/-- The forward scan started with counter 1 on a properly nested body
followed by the matching exit stops at that exit, having consumed the body
and the exit. -/
theorem scanCount_finds_exit {body : List Instr} (hb : LoopBalanced body)
    (rest : List Instr) :
    scanCount (body ++ Instr.exitI :: rest) 1 = some (body.length + 1) := by
  rw [scanCount_balanced hb (Instr.exitI :: rest) 1 le_rfl]
  simp [scanCount_exitI, Nat.add_comm]

/-- C1: the claim fails on the code.  On a VM with data tape [0] (counter 1),
reading with data_p = 1 -- exactly at the length boundary -- passes the
guard _len_data_t >= data_p and evaluates data_t[1], raising IndexError
instead of returning the claimed 0; with data_p = 2 the guard fails and the
method returns Python None, again not 0. -/
theorem read_data_t_boundary_raises :
    read_data_t { initFields with data_p := 1 } = Except.error PyErr.indexError ∧
    read_data_t { initFields with data_p := 2 } = Except.ok none :=
  ⟨rfl, rfl⟩

/-- C2: the claim fails on the code.  Construction never succeeds: the
register line of __init__ raises TypeError.  Moreover the field assignments
that do execute give the data stack, executable tape and jump stack the
one-element sentinel contents [0], not the claimed empty contents. -/
theorem init_always_raises :
    init = Except.error PyErr.typeError ∧
    initFields.data_s = [0] ∧
    initFields.exec_t = [0] ∧
    initFields.jump_s = [0] :=
  ⟨rfl, rfl, rfl, rfl⟩

/-- C3: the claim fails on the code in the very first state, the one
__init__ assigns: data_s is [0] (length 1) while _len_data_s is 0, and
jump_s is [0] (length 1) while _len_jump_s is 0, so neither depth counter
equals its sequence length. -/
theorem init_counter_length_mismatch :
    initFields.len_data_s = 0 ∧
    initFields.data_s.length = 1 ∧
    initFields.len_jump_s = 0 ∧
    initFields.jump_s.length = 1 :=
  ⟨rfl, rfl, rfl, rfl⟩

/-- C6: the claim fails on the code.  Writing the integer 5 at data_p = 1 on
the one-cell tape [0] does not grow the tape: the plain list item assignment
data_t[1] = 5 raises IndexError and leaves the state unchanged. -/
theorem write_data_t_no_growth :
    write_data_t { initFields with data_p := 1 } (PyVal.int 5) =
      ({ initFields with data_p := 1 }, some PyErr.indexError) :=
  rfl

/-- C5: for every non-integer value, write_data_t and push_data_s raise the
TypeMismatch error (Python ValueError) and return the state completely
unmodified; for every integer value neither raises that error. -/
theorem write_push_type_check (vm : SBrainVirtualMachine) (t : Nat) (v : Int) :
    write_data_t vm (PyVal.nonint t) = (vm, some PyErr.valueError) ∧
    push_data_s vm (PyVal.nonint t) = (vm, some PyErr.valueError) ∧
    (write_data_t vm (PyVal.int v)).2 ≠ some PyErr.valueError ∧
    (push_data_s vm (PyVal.int v)).2 ≠ some PyErr.valueError := by
  refine ⟨rfl, rfl, ?_, ?_⟩
  · unfold write_data_t
    by_cases h : vm.data_p < vm.data_t.length <;> simp [h]
  · simp [push_data_s]

/-- C8: load_data_tape replaces the data tape contents and resets data_p to
0, load_executable_tape replaces the executable tape and resets inst_p to 0,
each leaving every other field unchanged; both are total functions, so
neither has any error condition. -/
theorem load_tapes_replace_and_reset (vm : SBrainVirtualMachine)
    (tape prog : List Int) :
    load_data_tape vm tape =
      { vm with data_t := tape, len_data_t := tape.length, data_p := 0 } ∧
    load_executable_tape vm prog =
      { vm with exec_t := prog, len_exec_t := prog.length, inst_p := 0 } :=
  ⟨rfl, rfl⟩

/-- C9: on every VM state, pushing an integer v and then popping returns v
and restores the whole state -- in particular the data-stack contents and
its depth counter -- to exactly its value before the push. -/
theorem push_pop_roundtrip (vm : SBrainVirtualMachine) (v : Int) :
    pop_data_s (push_data_s vm (PyVal.int v)).1 = (vm, Except.ok v) := by
  simp [push_data_s, pop_data_s, List.getLast?_concat, List.dropLast_concat]

/-- C4: on any state whose depth counter agrees with the stack sequence,
any number of consecutive pop_data_s calls on an empty data stack each
return 0 and leave the whole state (in particular the depth and the
contents) unchanged; on a non-empty data stack a single pop_data_s removes
the last-pushed value, returns it, and decrements the depth counter. -/
theorem pop_data_s_spec (vm : SBrainVirtualMachine)
    (hcons : vm.len_data_s = vm.data_s.length) :
    (vm.len_data_s = 0 →
      ∀ n, popN n vm = (vm, List.replicate n (Except.ok 0))) ∧
    (0 < vm.len_data_s →
      pop_data_s vm =
        ({ vm with
            data_s := vm.data_s.dropLast
            len_data_s := vm.len_data_s - 1 },
          Except.ok (vm.data_s.getLastD 0))) := by
  constructor
  · intro h0 n
    induction n with
    | zero => rfl
    | succ n ih => simp [popN, pop_data_s, h0, ih, List.replicate_succ]
  · intro hpos
    have hne : vm.data_s ≠ [] := by
      refine List.ne_nil_of_length_pos ?_
      omega
    unfold pop_data_s
    rw [if_pos hpos]
    cases h : vm.data_s.getLast? with
    | none => exact absurd (List.getLast?_eq_none_iff.mp h) hne
    | some x => simp [List.getLastD_eq_getLast?, h]

/-- A concrete consistent VM state with the two-element data stack [3, 7],
used to witness pop_data_s_spec. -/
def vmW : SBrainVirtualMachine :=
  { initFields with data_s := [3, 7], len_data_s := 2 }

/-- Witness for pop_data_s_spec at the concrete state vmW. -/
theorem pop_data_s_spec_witness :
    vmW.len_data_s = vmW.data_s.length ∧
    ((vmW.len_data_s = 0 →
        ∀ n, popN n vmW = (vmW, List.replicate n (Except.ok 0))) ∧
      (0 < vmW.len_data_s →
        pop_data_s vmW =
          ({ vmW with data_s := [3], len_data_s := 1 }, Except.ok 7))) :=
  ⟨rfl, pop_data_s_spec vmW rfl⟩

/-- C10: whenever write_data_t succeeds on an integer value, it changes only
the data-tape cell at index data_p: the tape keeps its length and every
other cell, and the data stack, jump stack, their depth counters, the
executable tape, its length counter, and all four registers are unchanged. -/
theorem write_data_t_frame (vm vm' : SBrainVirtualMachine) (v : Int)
    (h : write_data_t vm (PyVal.int v) = (vm', none)) :
    vm'.data_t.length = vm.data_t.length ∧
    vm'.data_t[vm.data_p]? = some v ∧
    (∀ i, i ≠ vm.data_p → vm'.data_t[i]? = vm.data_t[i]?) ∧
    vm'.len_data_t = vm.len_data_t ∧
    vm'.data_s = vm.data_s ∧
    vm'.len_data_s = vm.len_data_s ∧
    vm'.jump_s = vm.jump_s ∧
    vm'.len_jump_s = vm.len_jump_s ∧
    vm'.exec_t = vm.exec_t ∧
    vm'.len_exec_t = vm.len_exec_t ∧
    vm'.data_p = vm.data_p ∧
    vm'.inst_p = vm.inst_p ∧
    vm'.jump_p = vm.jump_p ∧
    vm'.auxi_r = vm.auxi_r := by
  replace h : (if vm.data_p < vm.data_t.length then
      ({ vm with data_t := vm.data_t.set vm.data_p v }, none)
    else (vm, some PyErr.indexError)) = (vm', none) := h
  by_cases hlt : vm.data_p < vm.data_t.length
  · rw [if_pos hlt, Prod.mk.injEq] at h
    obtain ⟨h1, -⟩ := h
    subst h1
    refine ⟨by simp, ?_, ?_, rfl, rfl, rfl, rfl, rfl, rfl, rfl, rfl, rfl, rfl, rfl⟩
    · simp [List.getElem?_set_self, hlt]
    · intro i hi
      simp [List.getElem?_set_ne (Ne.symm hi)]
  · rw [if_neg hlt, Prod.mk.injEq] at h
    exact absurd h.2 (by simp)

/-- The state write_data_t_frame_witness writes into: the fresh field state
with the one-cell tape [0] and data_p = 0. -/
def vmAfterW : SBrainVirtualMachine := { initFields with data_t := [5] }

/-- Witness for write_data_t_frame: writing 5 at data_p = 0 on the tape [0]
succeeds and changes only that cell. -/
theorem write_data_t_frame_witness :
    write_data_t initFields (PyVal.int 5) = (vmAfterW, none) ∧
    (vmAfterW.data_t.length = initFields.data_t.length ∧
      vmAfterW.data_t[initFields.data_p]? = some 5 ∧
      (∀ i, i ≠ initFields.data_p →
        vmAfterW.data_t[i]? = initFields.data_t[i]?) ∧
      vmAfterW.len_data_t = initFields.len_data_t ∧
      vmAfterW.data_s = initFields.data_s ∧
      vmAfterW.len_data_s = initFields.len_data_s ∧
      vmAfterW.jump_s = initFields.jump_s ∧
      vmAfterW.len_jump_s = initFields.len_jump_s ∧
      vmAfterW.exec_t = initFields.exec_t ∧
      vmAfterW.len_exec_t = initFields.len_exec_t ∧
      vmAfterW.data_p = initFields.data_p ∧
      vmAfterW.inst_p = initFields.inst_p ∧
      vmAfterW.jump_p = initFields.jump_p ∧
      vmAfterW.auxi_r = initFields.auxi_r) :=
  ⟨by decide, write_data_t_frame initFields vmAfterW 5 (by decide)⟩

/-- C7: executing a loop-enter instruction while the cell at data_p is 0
skips forward with the nesting-counter scan and resumes immediately after
the matching loop-exit, at any nesting depth: on a program of the shape
pre ++ [enter] ++ body ++ [exit] ++ rest with a properly nested body and
inst_p at the enter, the instruction at position pre.length + 1 +
body.length is the matching exit, and the step moves inst_p to just past
it, changing nothing else in the machine state -- so no instruction of the
loop body is executed. -/
theorem loop_enter_zero_skips (pre body rest : List Instr)
    (hb : LoopBalanced body) (m : Machine)
    (hprog : m.prog = pre ++ Instr.enter :: (body ++ Instr.exitI :: rest))
    (hip : m.inst_p = pre.length) (hcell : cellAt m = 0) :
    m.prog[pre.length + 1 + body.length]? = some Instr.exitI ∧
    stepEnter m = some { m with inst_p := pre.length + 1 + body.length + 1 } := by
  constructor
  · rw [hprog]
    have hdrop : (pre ++ Instr.enter :: (body ++ Instr.exitI :: rest)).drop
        (pre.length + 1) = body ++ Instr.exitI :: rest :=
      drop_after pre Instr.enter (body ++ Instr.exitI :: rest)
    have := List.getElem?_drop
      (pre ++ Instr.enter :: (body ++ Instr.exitI :: rest))
      (pre.length + 1) body.length
    rw [hdrop] at this
    rw [← this, List.getElem?_append_right le_rfl]
    simp
  · unfold stepEnter
    rw [if_pos hcell]
    have hscan : scanCount (m.prog.drop (m.inst_p + 1)) 1 =
        some (body.length + 1) := by
      rw [hprog, hip, drop_after]
      exact scanCount_finds_exit hb rest
    rw [hscan, hip]
    rfl

/-- A concrete machine about to execute the loop-enter at position 0 of the
program [enter, other 7, exit] with its current cell 0, used to witness
loop_enter_zero_skips. -/
def mW : Machine :=
  { prog := [Instr.enter, Instr.other 7, Instr.exitI]
    inst_p := 0
    data_t := [0]
    data_p := 0
    data_s := []
    jump_s := []
    out := [] }

/-- Witness for loop_enter_zero_skips: on mW the skip lands at position 3,
just past the exit at position 2. -/
theorem loop_enter_zero_skips_witness :
    mW.prog[2]? = some Instr.exitI ∧
    stepEnter mW = some { mW with inst_p := 3 } :=
  loop_enter_zero_skips [] [Instr.other 7] []
    (LoopBalanced.other 7 LoopBalanced.nil) mW rfl rfl rfl
